import Mathlib

/-!
Shallow embedding of the journal-entry-testing application (src/JETO.py)
and proofs about its specification claims.

Numeric values are modelled as rationals (the Python code uses floats; all
quantities handled by the claims are exactly representable and the relevant
comparisons are exact).  A missing / unparseable value (pandas NaN / NaT /
None) is modelled as `Option.none`.  Calendar dates are modelled as integer
day numbers with day 0 = Thursday 1970-01-01.
-/

namespace JETO

attribute [local semireducible] Rat.add Rat.sub Rat.mul Rat.inv Rat.ofScientific

/-- One normalized ledger row (a row of processed_df).  The five required
columns are always present after mapping; optional columns (Created By,
Entry Description) may be absent at the dataset level, see `Dataset`. -/
structure Record where
  tid : String
  date : Option ℤ
  debit : Option ℚ
  credit : Option ℚ
  account : ℤ
  createdBy : Option String
  description : Option String
deriving DecidableEq

/-- The processed dataframe: its rows plus which optional columns exist.
The code tests column presence with, e.g., `"Created By" in df.columns`. -/
structure Dataset where
  rows : List Record
  hasDate : Bool
  hasCreatedBy : Bool
  hasDescription : Bool
deriving DecidableEq

/-- A row of the independently supplied trial balance. -/
structure TBRow where
  account : ℤ
  opening : ℚ
  ending : ℚ
deriving DecidableEq

/-- A row of the merged completeness-check result table. -/
structure CCRow where
  account : ℤ
  opening : ℚ
  ending : ℚ
  totalDebits : ℚ
  totalCredits : ℚ
  expectedEnding : ℚ
  discrepancy : ℚ
deriving DecidableEq

/-- Messages shown by the app (st.warning / st.error / st.success). -/
inductive Msg where
  | warning : String → Msg
  | error : String → Msg
  | success : String → Msg
deriving DecidableEq

/-- The mutable session state touched by the functions under study. -/
structure AppState where
  completeness_check_passed : Bool
  processed_df : Option Dataset
  trial_balance : Option (List TBRow)
  completeness_check_results : Option (List CCRow)
  high_risk_entries : Option (List Record)
  flagged_entries_by_category : List (String × List Record)
deriving DecidableEq

/-- Python round(x, 0): round half to even (banker rounding), as Python
rounds floats to the nearest integer with ties to even. -/
def pyRound (q : ℚ) : ℤ :=
  if q - ⌊q⌋ < 1/2 then ⌊q⌋
  else if q - ⌊q⌋ > 1/2 then ⌊q⌋ + 1
  else if ⌊q⌋ % 2 = 0 then ⌊q⌋ else ⌊q⌋ + 1

/-- src/JETO.py, is_99999: on a numeric value it tests
abs(value - round(value, 0)) >= 0.999 and abs(value - round(value, 0)) < 1.0;
float(None) and comparisons on NaN make every non-numeric input return False. -/
def is_99999 (v : Option ℚ) : Bool :=
  match v with
  | none => false
  | some q => decide (|q - (pyRound q : ℚ)| ≥ 999/1000) && decide (|q - (pyRound q : ℚ)| < 1)

/-- Python float modulo a % b for b different from 0: the remainder takes the
sign of the divisor, a % b = a - b * floor(a / b). -/
def pyMod (a b : ℚ) : ℚ := a - b * ⌊a / b⌋

/-- math.isclose(a, b, rel_tol=1e-6) with the default abs_tol = 0. -/
def isclose (a b : ℚ) : Bool :=
  decide (|a - b| ≤ max ((1/1000000) * max |a| |b|) 0)

/-- src/JETO.py, is_rounded (nested in perform_high_risk_test).  A missing
amount is a coerced NaN: float(nan) succeeds, nan == 0 is False, and for a
nonzero threshold nan % threshold is NaN, whose comparisons are all False —
so the function returns False; with threshold 0 the modulo itself raises
ZeroDivisionError, which the except clause (ValueError, TypeError only) does
NOT catch.  A zero numeric value returns False before the modulo; otherwise
the value is tested for being an exact multiple of the threshold or isclose
to it modulo the threshold, the modulo again raising ZeroDivisionError when
the threshold is 0.  The uncaught exception is modelled as `Option.none` and
propagates to the caller. -/
def is_rounded (value : Option ℚ) (threshold : ℚ) : Option Bool :=
  match value with
  | none => if threshold = 0 then none else some false
  | some v =>
    if v = 0 then some false
    else if threshold = 0 then none
    else some (decide (pyMod v threshold = 0) || isclose (pyMod v threshold) threshold)

/-- Sum of the debit amounts of the rows of a given account; pandas sum
skips NaN, so a missing amount contributes 0. -/
def sumDebits (rows : List Record) (a : ℤ) : ℚ :=
  ((rows.filter (fun r => r.account = a)).map (fun r => r.debit.getD 0)).sum

/-- Sum of the credit amounts of the rows of a given account. -/
def sumCredits (rows : List Record) (a : ℤ) : ℚ :=
  ((rows.filter (fun r => r.account = a)).map (fun r => r.credit.getD 0)).sum

/-- The distinct account numbers occurring in the ledger, in order of first
occurrence (the groupby keys). -/
def glAccounts (rows : List Record) : List ℤ := (rows.map (fun r => r.account)).dedup

/-- The groupby("Account Number").agg summary table: one row per distinct
account with its total debits and credits. -/
def gl_summary (rows : List Record) : List (ℤ × ℚ × ℚ) :=
  (glAccounts rows).map (fun a => (a, sumDebits rows a, sumCredits rows a))

/-- Left-join lookup into the GL summary; an account absent from the ledger
yields (0, 0) totals (the fillna(0) after the merge). -/
def lookupGL (gl : List (ℤ × ℚ × ℚ)) (a : ℤ) : ℚ × ℚ :=
  match gl.find? (fun e => e.1 = a) with
  | some e => e.2
  | none => (0, 0)

/-- One row of the merged completeness table for one trial-balance row. -/
def mkCCRow (gl : List (ℤ × ℚ × ℚ)) (t : TBRow) : CCRow :=
  let dc := lookupGL gl t.account
  { account := t.account
    opening := t.opening
    ending := t.ending
    totalDebits := dc.1
    totalCredits := dc.2
    expectedEnding := t.opening + dc.1 - dc.2
    discrepancy := t.opening + dc.1 - dc.2 - t.ending }

/-- merged_df["Discrepancy"].abs().max() over a nonempty table (folding from
0 is equal to the true maximum because absolute values are nonnegative). -/
def maxAbsDiscrepancy (merged : List CCRow) : ℚ :=
  merged.foldl (fun m r => max m |r.discrepancy|) 0

/-- src/JETO.py, perform_completeness_check: group the GL by account, merge
with the trial balance, fill missing totals with 0, compute expected ending
balance and discrepancy, store the table, and pass the gate iff the maximum
absolute discrepancy is at most 5.  Accounts with an absolute discrepancy
above 0.01 are additionally reported with a warning. -/
def perform_completeness_check (st : AppState) : AppState × List Msg :=
  match st.processed_df with
  | none => (st, [Msg.warning "No GL data to test. Please import a CSV file first."])
  | some ds =>
    if ds.rows = [] then
      (st, [Msg.warning "No GL data to test. Please import a CSV file first."])
    else
      match st.trial_balance with
      | none => (st, [Msg.warning "No trial balance data to test. Please import a trial balance CSV file first."])
      | some tb =>
        if tb = [] then
          (st, [Msg.warning "No trial balance data to test. Please import a trial balance CSV file first."])
        else
          let gl := gl_summary ds.rows
          let merged := tb.map (mkCCRow gl)
          let passed := decide (maxAbsDiscrepancy merged ≤ 5)
          let gateMsg := if passed then
              Msg.success "Completeness check passed! Maximum discrepancy is within the allowed tolerance of 5."
            else
              Msg.warning "Completeness check failed! Maximum discrepancy exceeds the allowed tolerance of 5."
          let discMsg := if merged.any (fun r => decide (|r.discrepancy| > 1/100)) then
              Msg.warning "Found accounts with discrepancies."
            else
              Msg.success "No discrepancies found. All accounts are complete."
          ({ st with
              completeness_check_results := some merged
              completeness_check_passed := passed },
           [gateMsg, discMsg])

/-- Row predicate of the public-holiday check:
df["Date"].isin(public_holidays); a null date is in no list of dates. -/
def holidayHit (holidays : List ℤ) (r : Record) : Bool :=
  holidays.any (fun h => r.date = some h)

/-- Row predicate of the rounded-number check: is_rounded on the debit or the
credit amount.  Only consulted when no ZeroDivisionError occurred, hence the
getD default is never observable. -/
def roundedHit (threshold : ℚ) (r : Record) : Bool :=
  (is_rounded r.debit threshold).getD false || (is_rounded r.credit threshold).getD false

/-- Whether evaluating the rounded-number filters raises ZeroDivisionError on
some row (value % 0 with a nonzero numeric value). -/
def roundedException (threshold : ℚ) (rows : List Record) : Bool :=
  rows.any (fun r => (is_rounded r.debit threshold).isNone)
    || rows.any (fun r => (is_rounded r.credit threshold).isNone)

/-- Row predicate of the unusual-user check:
~df["Created By"].isin(authorized_users); a null creator is flagged since NaN
is in no list. -/
def unusualHit (authorized : List String) (r : Record) : Bool :=
  ! authorized.any (fun u => r.createdBy = some u)

/-- Row predicate of the post-closing check: df["Date"] > closing_date;
a null date compares False. -/
def postClosingHit (closing : ℤ) (r : Record) : Bool :=
  match r.date with
  | some d => decide (d > closing)
  | none => false

/-- Comparison of one amount against the authorization-threshold band
[0.9 * threshold, threshold); a null amount compares False. -/
def inAuthBand (threshold : ℚ) (v : Option ℚ) : Bool :=
  match v with
  | some q => decide (q ≥ threshold * (9/10)) && decide (q < threshold)
  | none => false

/-- Row predicate of the below-authorization-threshold check. -/
def authHit (threshold : ℚ) (r : Record) : Bool :=
  inAuthBand threshold r.debit || inAuthBand threshold r.credit

/-- Row predicate of the 99999-pattern check. -/
def nineHit (r : Record) : Bool := is_99999 r.debit || is_99999 r.credit

/-- Case-insensitive substring test; str.contains with the keywords joined by
the regex alternation bar and case=False amounts to this for keywords free of
regex metacharacters (the configured keywords are plain words). -/
def containsCI (s k : String) : Bool :=
  decide (k.toLower.data <:+: s.toLower.data)

/-- Row predicate of the suspicious-keyword check; na=False makes a null
description unflagged. -/
def keywordHit (keywords : List String) (r : Record) : Bool :=
  match r.description with
  | some s => keywords.any (fun k => containsCI s k)
  | none => false

/-- Number of rows of a given account (value_counts). -/
def accountCount (rows : List Record) (a : ℤ) : Nat :=
  (rows.filter (fun r => r.account = a)).length

/-- Row predicate of the seldomly-used-accounts check: the row account occurs
fewer than the configured minimum number of times in the dataset. -/
def seldomHit (rows : List Record) (minCount : Nat) (r : Record) : Bool :=
  decide (accountCount rows r.account < minCount)

/-- The rule configuration read from the UI checkboxes and inputs. -/
structure Config where
  public_holidays_var : Bool
  rounded_var : Bool
  unusual_users_var : Bool
  post_closing_var : Bool
  auth_threshold_var : Bool
  nine_pattern_var : Bool
  keywords_var : Bool
  seldomly_used_accounts_var : Bool
  public_holidays : List ℤ
  rounded_threshold : ℚ
  authorized_users : List String
  closing_date : Option ℤ
  auth_threshold : ℚ
  suspicious_keywords : List String
  seldomly_used_accounts_threshold : Nat
deriving DecidableEq

/-- Concatenate flagged entries onto high_risk_entries and record them under
their category label, exactly as each branch of perform_high_risk_test does
with pd.concat and dictionary assignment. -/
def addCategory (st : AppState) (cat : String) (entries : List Record) : AppState :=
  { st with
      high_risk_entries := some ((st.high_risk_entries.getD []) ++ entries)
      flagged_entries_by_category := st.flagged_entries_by_category ++ [(cat, entries)] }

/-- Intermediate result of one rule check inside perform_high_risk_test:
ok means fall through to the next check, error means the Python function
returned early (st.error plus return, or an uncaught exception). -/
abbrev StepM := Except (AppState × List Msg) (AppState × List Msg)

/-- Sequencing of rule checks: an early return skips the rest. -/
def seqStep (x : StepM) (f : AppState × List Msg → StepM) : StepM :=
  match x with
  | .error r => .error r
  | .ok s => f s

/-- Public-holiday check (first rule block of perform_high_risk_test). -/
def holidayStep (cfg : Config) (ds : Dataset) : AppState × List Msg → StepM :=
  fun s =>
    if cfg.public_holidays_var then
      if ds.hasDate then
        .ok (addCategory s.1 "Public Holidays" (ds.rows.filter (holidayHit cfg.public_holidays)), s.2)
      else
        .error (s.1, s.2 ++ [Msg.error "Column Date not found in the data."])
    else .ok s

/-- Rounded-number check; a ZeroDivisionError escapes to the outer except
clause, which reports an error and ends the function. -/
def roundedStep (cfg : Config) (ds : Dataset) : AppState × List Msg → StepM :=
  fun s =>
    if cfg.rounded_var then
      if roundedException cfg.rounded_threshold ds.rows then
        .error (s.1, s.2 ++ [Msg.error "Error during testing."])
      else
        .ok (addCategory s.1 "Rounded Numbers" (ds.rows.filter (roundedHit cfg.rounded_threshold)), s.2)
    else .ok s

/-- Unusual-user check: missing column ends the run with an error; an empty
authorized list only warns and skips. -/
def unusualStep (cfg : Config) (ds : Dataset) : AppState × List Msg → StepM :=
  fun s =>
    if cfg.unusual_users_var then
      if ds.hasCreatedBy then
        if cfg.authorized_users = [] then
          .ok (s.1, s.2 ++ [Msg.warning "No authorized users provided. Skipping unusual users check."])
        else
          .ok (addCategory s.1 "Unauthorized Users" (ds.rows.filter (unusualHit cfg.authorized_users)), s.2)
      else
        .error (s.1, s.2 ++ [Msg.error "Column Created By not found in the data."])
    else .ok s

/-- Post-closing check: missing Date column ends the run; a missing closing
date only warns and skips. -/
def postClosingStep (cfg : Config) (ds : Dataset) : AppState × List Msg → StepM :=
  fun s =>
    if cfg.post_closing_var then
      if ds.hasDate then
        match cfg.closing_date with
        | none =>
          .ok (s.1, s.2 ++ [Msg.warning "No closing date provided. Skipping post-closing entries check."])
        | some cd =>
          .ok (addCategory s.1 "Post-Closing Entries" (ds.rows.filter (postClosingHit cd)), s.2)
      else
        .error (s.1, s.2 ++ [Msg.error "Column Date not found in the data."])
    else .ok s

/-- Below-authorization-threshold check (no column guard). -/
def authStep (cfg : Config) (ds : Dataset) : AppState × List Msg → StepM :=
  fun s =>
    if cfg.auth_threshold_var then
      .ok (addCategory s.1 "Below Authorization Threshold" (ds.rows.filter (authHit cfg.auth_threshold)), s.2)
    else .ok s

/-- 99999-pattern check (no column guard). -/
def nineStep (cfg : Config) (ds : Dataset) : AppState × List Msg → StepM :=
  fun s =>
    if cfg.nine_pattern_var then
      .ok (addCategory s.1 "99999 Pattern" (ds.rows.filter nineHit), s.2)
    else .ok s

/-- Suspicious-keyword check: missing description column ends the run; an
empty keyword list only warns and skips. -/
def keywordsStep (cfg : Config) (ds : Dataset) : AppState × List Msg → StepM :=
  fun s =>
    if cfg.keywords_var then
      if ds.hasDescription then
        if cfg.suspicious_keywords = [] then
          .ok (s.1, s.2 ++ [Msg.warning "No suspicious keywords provided. Skipping keyword check."])
        else
          .ok (addCategory s.1 "Suspicious Keywords" (ds.rows.filter (keywordHit cfg.suspicious_keywords)), s.2)
      else
        .error (s.1, s.2 ++ [Msg.error "Column Entry Description not found in the data."])
    else .ok s

/-- Seldomly-used-accounts check (the processed_df is known non-null here). -/
def seldomStep (cfg : Config) (ds : Dataset) : AppState × List Msg → StepM :=
  fun s =>
    if cfg.seldomly_used_accounts_var then
      .ok (addCategory s.1 "Seldomly Used Accounts"
            (ds.rows.filter (seldomHit ds.rows cfg.seldomly_used_accounts_threshold)), s.2)
    else .ok s

/-- Final success message of perform_high_risk_test. -/
def finalMsg (st : AppState) : Msg :=
  if (st.high_risk_entries.getD []) = [] then
    Msg.success "No high-risk entries found."
  else
    Msg.success "Found high-risk entries."

/-- The chain of the eight rule checks of perform_high_risk_test, run from a
starting state with freshly reset flagged collections; an early return
yields its state and messages as they stood, a completed run appends the
final success message. -/
def runChain (cfg : Config) (ds : Dataset) (s0 : AppState × List Msg) : AppState × List Msg :=
  match
    seqStep (seqStep (seqStep (seqStep (seqStep (seqStep (seqStep
      (holidayStep cfg ds s0)
      (roundedStep cfg ds))
      (unusualStep cfg ds))
      (postClosingStep cfg ds))
      (authStep cfg ds))
      (nineStep cfg ds))
      (keywordsStep cfg ds))
      (seldomStep cfg ds)
  with
  | .error r => r
  | .ok s => (s.1, s.2 ++ [finalMsg s.1])

/-- src/JETO.py, perform_high_risk_test: refuse to run while the completeness
gate has not passed; refuse on absent or empty data; otherwise reset the
flagged collections and run the eight enabled rule checks in order, each
either appending a category or ending the run early. -/
def perform_high_risk_test (cfg : Config) (st : AppState) : AppState × List Msg :=
  if st.completeness_check_passed then
    match st.processed_df with
    | none => (st, [Msg.warning "No data to test. Please import a CSV file first."])
    | some ds =>
      if ds.rows = [] then
        (st, [Msg.warning "No data to test. Please import a CSV file first."])
      else
        runChain cfg ds
          ({ st with high_risk_entries := some [], flagged_entries_by_category := [] }, [])
  else
    (st, [Msg.warning "Completeness check has not passed. Please ensure the completeness check is successful before running high-risk tests."])

/-- Day of week of an integer day number, with 0 = Sunday, ..., 6 = Saturday;
day 0 = 1970-01-01 was a Thursday (= 4). -/
def weekday (d : ℤ) : ℤ := (d + 4) % 7

/-- Whether a day number falls on a Saturday or a Sunday. -/
def isWeekend (d : ℤ) : Bool := decide (weekday d = 0) || decide (weekday d = 6)

/-- A raw spreadsheet cell before or after type coercion.  Cells are modelled
as already classified into parseable kinds: `num` parses under pd.to_numeric,
`date` parses under pd.to_datetime, `str` parses under neither, `null` is
missing. -/
inductive Cell where
  | str : String → Cell
  | num : ℚ → Cell
  | date : ℤ → Cell
  | null : Cell
deriving DecidableEq

/-- A raw dataframe: named columns of cells. -/
structure RawDf where
  cols : List (String × List Cell)
deriving DecidableEq

/-- src/JETO.py, required_fields: the five fields that must be mapped. -/
def required_fields : List String :=
  ["Transaction ID", "Date", "Debit Amount (Dr)", "Credit Amount (Cr)", "Account Number"]

/-- pd.to_numeric with errors="coerce": unparseable cells become null. -/
def toNumericCell (c : Cell) : Cell :=
  match c with
  | .num q => .num q
  | _ => .null

/-- pd.to_datetime with errors="coerce": unparseable cells become null. -/
def toDateCell (c : Cell) : Cell :=
  match c with
  | .date d => .date d
  | _ => .null

/-- src/JETO.py, convert_data_types: coerce the two amount columns to numeric
and the Date column to datetime, leaving other columns untouched. -/
def convert_data_types (df : RawDf) : RawDf :=
  ⟨df.cols.map (fun col =>
    if col.1 = "Debit Amount (Dr)" ∨ col.1 = "Credit Amount (Cr)" then
      (col.1, col.2.map toNumericCell)
    else if col.1 = "Date" then
      (col.1, col.2.map toDateCell)
    else col)⟩

/-- The inverse rename dictionary built from the column mapping, keeping only
assigned fields; a later field mapped to the same source column overwrites an
earlier one, as Python dictionary comprehension does. -/
def invMapOf (mapping : List (String × String)) : List (String × String) :=
  mapping.foldl
    (fun acc p =>
      if p.2 = "" then acc
      else (p.2, p.1) :: acc.filter (fun q => ¬ q.1 = p.2))
    []

/-- df.rename over the inverse of the column mapping. -/
def renameColumns (mapping : List (String × String)) (df : RawDf) : RawDf :=
  ⟨df.cols.map (fun col =>
    match (invMapOf mapping).find? (fun q => q.1 = col.1) with
    | some q => (q.2, col.2)
    | none => col)⟩

/-- src/JETO.py, main_app, Confirm Mapping button: list the required fields
whose mapping selection is still the empty string; on any missing field show
an error and leave processed_df untouched, otherwise rename the columns and
coerce the types.  The error value carries only the missing field names; no
partial dataset exists on the error path. -/
def confirm_mapping (mapping : List (String × String)) (df : RawDf) :
    Except (List String) RawDf :=
  if required_fields.filter (fun f => ((mapping.lookup f).getD "") = "") = [] then
    .ok (convert_data_types (renameColumns mapping df))
  else
    .error (required_fields.filter (fun f => ((mapping.lookup f).getD "") = ""))

/-- Modelled from the spec: the Offset Matcher of spec section 4.3 has no
implementation under src/ (no function of src/JETO.py pairs debit and credit
rows); this row type, the scan state and `offsetScan` below are built from
the spec text.  A row carries its account, its debit and credit amounts and
an optional date. -/
structure ORow where
  account : ℤ
  debit : ℚ
  credit : ℚ
  date : Option ℤ
deriving DecidableEq

/-- Modelled from the spec: match outcome of one row; a match records the
elapsed day count, or none when either date is null. -/
inductive OffsetOutcome where
  | matched : Option ℤ → OffsetOutcome
  | unmatched : OffsetOutcome
deriving DecidableEq

/-- Modelled from the spec: one pending map with at most one slot per
(account, amount) key; the stored value is the pending row index and date. -/
def PendingMap := List ((ℤ × ℚ) × (Nat × Option ℤ))

/-- Store a pending row under its key, overwriting any earlier slot. -/
def slotInsert (m : PendingMap) (k : ℤ × ℚ) (v : Nat × Option ℤ) : PendingMap :=
  (k, v) :: m.filter (fun p => ¬ p.1 = k)

/-- Look up the pending slot of a key. -/
def slotGet (m : PendingMap) (k : ℤ × ℚ) : Option (Nat × Option ℤ) :=
  (m.find? (fun p => p.1 = k)).map (fun p => p.2)

/-- Remove the consumed slot of a key. -/
def slotErase (m : PendingMap) (k : ℤ × ℚ) : PendingMap :=
  m.filter (fun p => ¬ p.1 = k)

/-- Modelled from the spec: scan state of the Offset Matcher. -/
structure OState where
  pendingDebits : PendingMap
  pendingCredits : PendingMap
  res : List (Nat × OffsetOutcome)

/-- Elapsed day count between two optional dates, none when either is null. -/
def dayDiff (a b : Option ℤ) : Option ℤ :=
  match a, b with
  | some x, some y => some |x - y|
  | _, _ => none

/-- Modelled from the spec: processing of one row.  A debit row with positive
amount consumes a pending credit of the same (account, amount) key, marking
both rows Matched with the absolute day difference, or becomes pending
itself; symmetrically for a credit row. -/
def offsetStep (st : OState) (i : Nat) (r : ORow) : OState :=
  if r.debit > 0 then
    match slotGet st.pendingCredits (r.account, r.debit) with
    | some jv =>
      { st with
          pendingCredits := slotErase st.pendingCredits (r.account, r.debit)
          res := st.res ++ [(i, .matched (dayDiff r.date jv.2)), (jv.1, .matched (dayDiff r.date jv.2))] }
    | none =>
      { st with pendingDebits := slotInsert st.pendingDebits (r.account, r.debit) (i, r.date) }
  else if r.credit > 0 then
    match slotGet st.pendingDebits (r.account, r.credit) with
    | some jv =>
      { st with
          pendingDebits := slotErase st.pendingDebits (r.account, r.credit)
          res := st.res ++ [(jv.1, .matched (dayDiff jv.2 r.date)), (i, .matched (dayDiff jv.2 r.date))] }
    | none =>
      { st with pendingCredits := slotInsert st.pendingCredits (r.account, r.credit) (i, r.date) }
  else st

/-- Auxiliary indexed fold of the scan. -/
def offsetScanAux (st : OState) (i : Nat) : List ORow → OState
  | [] => st
  | r :: rest => offsetScanAux (offsetStep st i r) (i + 1) rest

/-- Modelled from the spec: the full scan; rows still pending at the end are
Unmatched, as is every row that never entered a pending map. -/
def offsetScan (rows : List ORow) : List (Nat × OffsetOutcome) :=
  let fin := offsetScanAux ⟨[], [], []⟩ 0 rows
  (List.range rows.length).map (fun i =>
    (i, ((fin.res.find? (fun p => p.1 = i)).map (fun p => p.2)).getD .unmatched))

/-- The completeness row as the claim words it: per trial-balance account,
total debits and credits computed directly over the ledger rows of that
account, expected ending = opening + debits - credits, discrepancy =
expected ending - actual ending.  To be compared with the merge-based
computation of `perform_completeness_check`. -/
def claimCCRow (rows : List Record) (t : TBRow) : CCRow :=
  { account := t.account
    opening := t.opening
    ending := t.ending
    totalDebits := sumDebits rows t.account
    totalCredits := sumCredits rows t.account
    expectedEnding := t.opening + sumDebits rows t.account - sumCredits rows t.account
    discrepancy := t.opening + sumDebits rows t.account - sumCredits rows t.account - t.ending }

/-- The rows each category label collects when its rule runs: the filter of
the dataset under that rule's predicate (an unknown label collects nothing).
Used to state that every recorded category holds exactly the rows its rule
matched. -/
def categoryFilter (cfg : Config) (ds : Dataset) (cat : String) : List Record :=
  if cat = "Public Holidays" then ds.rows.filter (holidayHit cfg.public_holidays)
  else if cat = "Rounded Numbers" then ds.rows.filter (roundedHit cfg.rounded_threshold)
  else if cat = "Unauthorized Users" then ds.rows.filter (unusualHit cfg.authorized_users)
  else if cat = "Post-Closing Entries" then
    match cfg.closing_date with
    | some cd => ds.rows.filter (postClosingHit cd)
    | none => []
  else if cat = "Below Authorization Threshold" then ds.rows.filter (authHit cfg.auth_threshold)
  else if cat = "99999 Pattern" then ds.rows.filter nineHit
  else if cat = "Suspicious Keywords" then ds.rows.filter (keywordHit cfg.suspicious_keywords)
  else if cat = "Seldomly Used Accounts" then
    ds.rows.filter (seldomHit ds.rows cfg.seldomly_used_accounts_threshold)
  else []

/-- The session state after a rule check, whether it fell through or ended
the run early. -/
def outState (x : StepM) : AppState :=
  match x with
  | .ok s => s.1
  | .error s => s.1

/-- The entry list recorded for a category, as the export code reads it. -/
def lookupCategory (st : AppState) (cat : String) : Option (List Record) :=
  (st.flagged_entries_by_category.find? (fun p => p.1 = cat)).map (fun p => p.2)

/-- Invariant tying the flat flagged collection to the per-category lists:
high_risk_entries is exactly the concatenation of the recorded category
lists, and every recorded category holds exactly the rows its rule
matched. -/
def catInv (cfg : Config) (ds : Dataset) (s : AppState) : Prop :=
  s.high_risk_entries = some ((s.flagged_entries_by_category.map Prod.snd).flatten) ∧
  ∀ p ∈ s.flagged_entries_by_category, p.2 = categoryFilter cfg ds p.1

/-- A rule check only ever appends to the recorded category list. -/
def FlaggedExtends (f : AppState × List Msg → StepM) : Prop :=
  ∀ s, ∃ t, (outState (f s)).flagged_entries_by_category
      = s.1.flagged_entries_by_category ++ t

/-- A rule check taking a state satisfying the category invariant to another
such state, whether it falls through or ends the run. -/
def StepPreserves (cfg : Config) (ds : Dataset) (f : AppState × List Msg → StepM) : Prop :=
  ∀ s, catInv cfg ds s.1 → catInv cfg ds (outState (f s))

/-- The ledger row of the abort counterexample. -/
def row3 : Record := ⟨"t1", some 10, some 7, none, 1, none, none⟩

/-- Dataset of the abort counterexample: the Created By column is absent. -/
def ds3 : Dataset := ⟨[row3], true, false, false⟩

/-- Configuration of the abort counterexample: unusual users and seldomly
used accounts are both enabled, with a nonempty authorized list. -/
def cfg3 : Config :=
  ⟨false, false, true, false, false, false, false, true, [], 100, ["alice"], none, 10000, [], 5⟩

/-- Session state of the abort counterexample, gate passed. -/
def st3 : AppState := ⟨true, some ds3, none, none, none, []⟩

/-- The ledger row of the duplication counterexample: dated on the listed
holiday and carrying a debit of 200. -/
def r5 : Record := ⟨"t1", some 5, some 200, none, 1, none, none⟩

/-- Dataset of the duplication counterexample. -/
def ds5 : Dataset := ⟨[r5], true, false, false⟩

/-- Configuration of the duplication counterexample: public holidays (list
containing day 5) and rounded numbers (threshold 100) both enabled. -/
def cfg5 : Config :=
  ⟨true, true, false, false, false, false, false, false, [5], 100, [], none, 10000, [], 5⟩

/-- Session state of the duplication counterexample, gate passed. -/
def st5 : AppState := ⟨true, some ds5, none, none, none, []⟩

/-- The ledger row of the weekend counterexample: day 2 is Saturday
1970-01-03. -/
def rW : Record := ⟨"t1", some 2, some 100, none, 1, none, none⟩

/-- Dataset of the weekend counterexample. -/
def dsW : Dataset := ⟨[rW], true, false, false⟩

/-- Configuration of the weekend counterexample: the public-holiday rule is
enabled with an empty holiday list. -/
def cfgW : Config :=
  ⟨true, false, false, false, false, false, false, false, [], 100, [], none, 10000, [], 5⟩

/-- Session state of the weekend counterexample, gate passed. -/
def stW : AppState := ⟨true, some dsW, none, none, none, []⟩

/-- A column mapping assigning the four fields the claim calls required and
nothing else. -/
def mapping4 : List (String × String) :=
  [("Transaction ID", "c1"), ("Date", "c2"), ("Debit Amount (Dr)", "c3"),
   ("Credit Amount (Cr)", "c4")]

/-- A column mapping assigning all five required fields. -/
def mapping5 : List (String × String) :=
  [("Transaction ID", "c1"), ("Date", "c2"), ("Debit Amount (Dr)", "c3"),
   ("Credit Amount (Cr)", "c4"), ("Account Number", "c5")]

/-- An empty raw dataframe. -/
def rawDf0 : RawDf := ⟨[]⟩

/-- The ledger rows used by the concrete completeness example: debit sum 50,
credit sum 20 on account 1. -/
def exRows : List Record := [⟨"t1", none, some 50, some 20, 1, none, none⟩]

/-- The dataset of the completeness example. -/
def exDs : Dataset := ⟨exRows, true, false, false⟩

/-- The session state of the completeness example, parametrised by the
actual ending balance of the trial balance (opening 100). -/
def exState (ending : ℚ) : AppState :=
  ⟨false, some exDs, some [⟨1, 100, ending⟩], none, none, []⟩

/-- A configuration with every rule disabled and default parameters. -/
def cfg0 : Config :=
  ⟨false, false, false, false, false, false, false, false, [], 100, [], none, 10000, [], 5⟩

/-- A fresh session state before any completeness check. -/
def st0 : AppState := ⟨false, none, none, none, none, []⟩

/-! ### Helper lemmas -/

/-- The distance from a rational to its Python-rounded integer is at most 1/2. -/
theorem abs_sub_pyRound_le_half (q : ℚ) : |q - (pyRound q : ℚ)| ≤ 1/2 := by
  have h0 : (⌊q⌋ : ℚ) ≤ q := Int.floor_le q
  have h1 : q < ⌊q⌋ + 1 := Int.lt_floor_add_one q
  unfold pyRound
  by_cases hlt : q - ⌊q⌋ < 1/2
  · simp only [hlt, if_true]
    rw [abs_le]
    constructor <;> linarith
  · simp only [hlt, if_false]
    by_cases hgt : q - ⌊q⌋ > 1/2
    · simp only [hgt, if_true]
      push_cast
      rw [abs_le]
      constructor <;> linarith
    · simp only [hgt, if_false]
      have heq : q - ⌊q⌋ = 1/2 := by linarith [not_lt.mp hlt, not_lt.mp hgt]
      by_cases hev : ⌊q⌋ % 2 = 0
      · simp only [hev, if_true]
        rw [abs_le]
        constructor <;> linarith
      · simp only [hev, if_false]
        push_cast
        rw [abs_le]
        constructor <;> linarith

/-- The find? of an equality test returns the sought element iff present. -/
theorem find?_eq_self (l : List ℤ) (a : ℤ) :
    l.find? (fun x => x = a) = if a ∈ l then some a else none := by
  induction l with
  | nil => simp
  | cons b t ih =>
    by_cases hb : b = a
    · subst hb
      simp [List.find?]
    · rw [List.find?_cons_of_neg _ (by simpa using hb), ih]
      simp [hb, Ne.symm hb]

/-- The filter of the rows of an account absent from the ledger is empty. -/
theorem filter_account_nil (rows : List Record) (a : ℤ)
    (h : a ∉ rows.map (fun r => r.account)) :
    rows.filter (fun r => r.account = a) = [] := by
  rw [List.filter_eq_nil_iff]
  intro r hr
  simp only [decide_eq_true_eq]
  intro hacc
  exact h (List.mem_map.mpr ⟨r, hr, hacc⟩)

/-- The merge lookup into the groupby summary computes exactly the direct
per-account sums, with an absent account yielding zero totals. -/
theorem lookupGL_gl_summary (rows : List Record) (a : ℤ) :
    lookupGL (gl_summary rows) a = (sumDebits rows a, sumCredits rows a) := by
  unfold lookupGL gl_summary
  rw [List.find?_map]
  have hcomp :
      ((fun e : ℤ × ℚ × ℚ => decide (e.1 = a)) ∘
        fun x => (x, sumDebits rows x, sumCredits rows x)) = fun x => decide (x = a) := rfl
  rw [hcomp, find?_eq_self]
  by_cases hmem : a ∈ glAccounts rows
  · simp [hmem]
  · have hnot : a ∉ rows.map (fun r => r.account) := by
      simpa [glAccounts, List.mem_dedup] using hmem
    have hfil := filter_account_nil rows a hnot
    simp [hmem, sumDebits, sumCredits, hfil]

/-- Claim C1: the completeness check computes, per trial-balance account,
total debits and credits from the ledger grouped by account (an account
absent from the ledger getting zero totals, not an error), expected ending
= opening + debits - credits, discrepancy = expected - actual ending, and
the gate passes iff the maximum absolute discrepancy is at most 5; on the
example with opening 100, debits 50, credits 20 the gate passes with
discrepancy 0 for actual ending 130 and fails with discrepancy 10 for
actual ending 120. -/
theorem completeness_check_spec :
    (∀ (st : AppState) (ds : Dataset) (tb : List TBRow),
      st.processed_df = some ds → ds.rows ≠ [] →
      st.trial_balance = some tb → tb ≠ [] →
      (perform_completeness_check st).1.completeness_check_results =
          some (tb.map (claimCCRow ds.rows)) ∧
      ((perform_completeness_check st).1.completeness_check_passed = true ↔
          maxAbsDiscrepancy (tb.map (claimCCRow ds.rows)) ≤ 5) ∧
      (∀ t ∈ tb, t.account ∉ ds.rows.map (fun r => r.account) →
          sumDebits ds.rows t.account = 0 ∧ sumCredits ds.rows t.account = 0)) ∧
    (perform_completeness_check (exState 130)).1.completeness_check_passed = true ∧
    (perform_completeness_check (exState 130)).1.completeness_check_results =
        some [⟨1, 100, 130, 50, 20, 130, 0⟩] ∧
    (perform_completeness_check (exState 120)).1.completeness_check_passed = false ∧
    (perform_completeness_check (exState 120)).1.completeness_check_results =
        some [⟨1, 100, 120, 50, 20, 130, 10⟩] := by
  refine ⟨?_, by decide, by decide, by decide, by decide⟩
  intro st ds tb h1 h2 h3 h4
  have hmk : mkCCRow (gl_summary ds.rows) = claimCCRow ds.rows := by
    funext t
    unfold mkCCRow claimCCRow
    rw [lookupGL_gl_summary]
  have hres :
      (perform_completeness_check st).1.completeness_check_results =
        some (tb.map (mkCCRow (gl_summary ds.rows))) := by
    unfold perform_completeness_check
    rw [h1, h3]
    simp [h2, h4]
  have hpass :
      (perform_completeness_check st).1.completeness_check_passed =
        decide (maxAbsDiscrepancy (tb.map (mkCCRow (gl_summary ds.rows))) ≤ 5) := by
    unfold perform_completeness_check
    rw [h1, h3]
    simp [h2, h4]
  refine ⟨?_, ?_, ?_⟩
  · rw [hres, hmk]
  · rw [hpass, hmk]
    exact decide_eq_true_iff
  · intro t _ habs
    have hfil := filter_account_nil ds.rows t.account habs
    constructor
    · simp [sumDebits, hfil]
    · simp [sumCredits, hfil]

/-- Witness for claim C1 at the example state with actual ending 130. -/
theorem completeness_check_spec_witness :
    (exState 130).processed_df = some exDs ∧ exDs.rows ≠ [] ∧
    (exState 130).trial_balance = some [⟨1, 100, 130⟩] ∧
    (perform_completeness_check (exState 130)).1.completeness_check_results =
        some (([⟨1, 100, 130⟩] : List TBRow).map (claimCCRow exDs.rows)) := by
  refine ⟨rfl, by decide, rfl, ?_⟩
  exact (completeness_check_spec.1 (exState 130) exDs [⟨1, 100, 130⟩] rfl (by decide) rfl
    (by decide)).1

/-! ### Claim theorems -/

/-- Claim C9: for every input value, is_99999 returns False, because the
distance from a number to its rounded integer is at most one half and can
never reach 0.999; the 99999-pattern check flags no row on any dataset. -/
theorem is_99999_always_false : ∀ v : Option ℚ, is_99999 v = false := by
  intro v
  cases v with
  | none => rfl
  | some q =>
    have h := abs_sub_pyRound_le_half q
    have h2 : ¬ (|q - (pyRound q : ℚ)| ≥ 999/1000) := by
      intro hc
      linarith
    simp [is_99999, h2]

/-- Claim C6 (code bug witness): the code returns False on the very inputs
its specification says must be flagged: 999.995 (the spec example) and
0.9995, whose fractional part 0.9995 lies in the interval from 0.999 to 1. -/
theorem is_99999_misses_pattern :
    is_99999 (some (199999/200)) = false ∧
    is_99999 (some (1999/2000)) = false ∧
    (999/1000 : ℚ) ≤ (1999/2000 : ℚ) - (⌊(1999/2000 : ℚ)⌋ : ℚ) ∧
    (1999/2000 : ℚ) - (⌊(1999/2000 : ℚ)⌋ : ℚ) < 1 := by
  refine ⟨by decide, by decide, by norm_num, by norm_num⟩

/-- Claim C2: while the completeness gate has not passed,
perform_high_risk_test emits exactly one warning and leaves the whole
session state (hence high_risk_entries and flagged_entries_by_category)
unchanged; no rule check runs and no exception escapes. -/
theorem gate_blocks_high_risk_test :
    ∀ (cfg : Config) (st : AppState),
      st.completeness_check_passed = false →
      perform_high_risk_test cfg st =
        (st, [Msg.warning "Completeness check has not passed. Please ensure the completeness check is successful before running high-risk tests."]) := by
  intro cfg st h
  simp [perform_high_risk_test, h]

/-- Witness for claim C2 on a fresh session state. -/
theorem gate_blocks_high_risk_test_witness :
    st0.completeness_check_passed = false ∧
    perform_high_risk_test cfg0 st0 =
      (st0, [Msg.warning "Completeness check has not passed. Please ensure the completeness check is successful before running high-risk tests."]) :=
  ⟨rfl, gate_blocks_high_risk_test cfg0 st0 rfl⟩

/-- Claim C4 (offset matcher modelled from the spec, no implementation under
src/): on an input of one debit of 500 and one credit of 500 in the same
account, three days apart, the scan pairs them through the pending maps and
both rows end Matched with a recorded day-difference of 3, for every account
and every base date. -/
theorem offset_matcher_basic (a : ℤ) (d : ℤ) :
    offsetScan [⟨a, 500, 0, some d⟩, ⟨a, 0, 500, some (d + 3)⟩] =
      [(0, .matched (some 3)), (1, .matched (some 3))] := by
  have hd : d - (d + 3) = -3 := by ring
  simp [offsetScan, offsetScanAux, offsetStep, slotGet, slotInsert, slotErase, dayDiff,
    List.find?, List.range, List.range.loop, hd]

/-! ### Step machinery lemmas -/

theorem categoryFilter_holidays (cfg : Config) (ds : Dataset) :
    categoryFilter cfg ds "Public Holidays" = ds.rows.filter (holidayHit cfg.public_holidays) := rfl

theorem categoryFilter_rounded (cfg : Config) (ds : Dataset) :
    categoryFilter cfg ds "Rounded Numbers" = ds.rows.filter (roundedHit cfg.rounded_threshold) := rfl

theorem categoryFilter_unusual (cfg : Config) (ds : Dataset) :
    categoryFilter cfg ds "Unauthorized Users" = ds.rows.filter (unusualHit cfg.authorized_users) := rfl

theorem categoryFilter_postClosing (cfg : Config) (ds : Dataset) :
    categoryFilter cfg ds "Post-Closing Entries" =
      (match cfg.closing_date with
       | some cd => ds.rows.filter (postClosingHit cd)
       | none => []) := rfl

theorem categoryFilter_auth (cfg : Config) (ds : Dataset) :
    categoryFilter cfg ds "Below Authorization Threshold" =
      ds.rows.filter (authHit cfg.auth_threshold) := rfl

theorem categoryFilter_nine (cfg : Config) (ds : Dataset) :
    categoryFilter cfg ds "99999 Pattern" = ds.rows.filter nineHit := rfl

theorem categoryFilter_keywords (cfg : Config) (ds : Dataset) :
    categoryFilter cfg ds "Suspicious Keywords" =
      ds.rows.filter (keywordHit cfg.suspicious_keywords) := rfl

theorem categoryFilter_seldom (cfg : Config) (ds : Dataset) :
    categoryFilter cfg ds "Seldomly Used Accounts" =
      ds.rows.filter (seldomHit ds.rows cfg.seldomly_used_accounts_threshold) := rfl

/-- Appending a category preserves the flat-equals-concatenation invariant
when the appended entries are exactly the rows the rule matched. -/
theorem catInv_addCategory (cfg : Config) (ds : Dataset) (st : AppState)
    (cat : String) (entries : List Record) (h : catInv cfg ds st)
    (he : entries = categoryFilter cfg ds cat) :
    catInv cfg ds (addCategory st cat entries) := by
  obtain ⟨h1, h2⟩ := h
  constructor
  · simp [addCategory, h1]
  · intro p hp
    rcases List.mem_append.mp hp with hmem | hmem
    · exact h2 p hmem
    · simp only [List.mem_singleton] at hmem
      subst hmem
      exact he

theorem preserves_seq (cfg : Config) (ds : Dataset) (x : StepM)
    (f : AppState × List Msg → StepM)
    (hx : catInv cfg ds (outState x)) (hf : StepPreserves cfg ds f) :
    catInv cfg ds (outState (seqStep x f)) := by
  cases x with
  | error r => exact hx
  | ok s => exact hf s hx

theorem holidayStep_preserves (cfg : Config) (ds : Dataset) :
    StepPreserves cfg ds (holidayStep cfg ds) := by
  intro s hs
  unfold holidayStep
  split
  · split
    · exact catInv_addCategory cfg ds s.1 _ _ hs (categoryFilter_holidays cfg ds).symm
    · exact hs
  · exact hs

theorem roundedStep_preserves (cfg : Config) (ds : Dataset) :
    StepPreserves cfg ds (roundedStep cfg ds) := by
  intro s hs
  unfold roundedStep
  split
  · split
    · exact hs
    · exact catInv_addCategory cfg ds s.1 _ _ hs (categoryFilter_rounded cfg ds).symm
  · exact hs

theorem unusualStep_preserves (cfg : Config) (ds : Dataset) :
    StepPreserves cfg ds (unusualStep cfg ds) := by
  intro s hs
  unfold unusualStep
  split
  · split
    · split
      · exact hs
      · exact catInv_addCategory cfg ds s.1 _ _ hs (categoryFilter_unusual cfg ds).symm
    · exact hs
  · exact hs

theorem postClosingStep_preserves (cfg : Config) (ds : Dataset) :
    StepPreserves cfg ds (postClosingStep cfg ds) := by
  intro s hs
  unfold postClosingStep
  split
  · split
    · split
      · exact hs
      · rename_i cd heq
        refine catInv_addCategory cfg ds s.1 _ _ hs ?_
        rw [categoryFilter_postClosing, heq]
    · exact hs
  · exact hs

theorem authStep_preserves (cfg : Config) (ds : Dataset) :
    StepPreserves cfg ds (authStep cfg ds) := by
  intro s hs
  unfold authStep
  split
  · exact catInv_addCategory cfg ds s.1 _ _ hs (categoryFilter_auth cfg ds).symm
  · exact hs

theorem nineStep_preserves (cfg : Config) (ds : Dataset) :
    StepPreserves cfg ds (nineStep cfg ds) := by
  intro s hs
  unfold nineStep
  split
  · exact catInv_addCategory cfg ds s.1 _ _ hs (categoryFilter_nine cfg ds).symm
  · exact hs

theorem keywordsStep_preserves (cfg : Config) (ds : Dataset) :
    StepPreserves cfg ds (keywordsStep cfg ds) := by
  intro s hs
  unfold keywordsStep
  split
  · split
    · split
      · exact hs
      · exact catInv_addCategory cfg ds s.1 _ _ hs (categoryFilter_keywords cfg ds).symm
    · exact hs
  · exact hs

theorem seldomStep_preserves (cfg : Config) (ds : Dataset) :
    StepPreserves cfg ds (seldomStep cfg ds) := by
  intro s hs
  unfold seldomStep
  split
  · exact catInv_addCategory cfg ds s.1 _ _ hs (categoryFilter_seldom cfg ds).symm
  · exact hs

/-- The full chain of the eight rule checks preserves the category
invariant from its starting state. -/
theorem chain_inv (cfg : Config) (ds : Dataset) (s0 : AppState × List Msg)
    (h : catInv cfg ds s0.1) :
    catInv cfg ds (outState
      (seqStep (seqStep (seqStep (seqStep (seqStep (seqStep (seqStep
        (holidayStep cfg ds s0)
        (roundedStep cfg ds))
        (unusualStep cfg ds))
        (postClosingStep cfg ds))
        (authStep cfg ds))
        (nineStep cfg ds))
        (keywordsStep cfg ds))
        (seldomStep cfg ds))) := by
  refine preserves_seq cfg ds _ _ ?_ (seldomStep_preserves cfg ds)
  refine preserves_seq cfg ds _ _ ?_ (keywordsStep_preserves cfg ds)
  refine preserves_seq cfg ds _ _ ?_ (nineStep_preserves cfg ds)
  refine preserves_seq cfg ds _ _ ?_ (authStep_preserves cfg ds)
  refine preserves_seq cfg ds _ _ ?_ (postClosingStep_preserves cfg ds)
  refine preserves_seq cfg ds _ _ ?_ (unusualStep_preserves cfg ds)
  refine preserves_seq cfg ds _ _ ?_ (roundedStep_preserves cfg ds)
  exact holidayStep_preserves cfg ds s0 h

/-- Running the whole chain preserves the category invariant, whether it
completes or returns early. -/
theorem runChain_inv (cfg : Config) (ds : Dataset) (s0 : AppState × List Msg)
    (h : catInv cfg ds s0.1) :
    catInv cfg ds (runChain cfg ds s0).1 := by
  have hc := chain_inv cfg ds s0 h
  unfold runChain
  split
  · next r heq =>
    rw [heq] at hc
    simpa [outState] using hc
  · next s heq =>
    rw [heq] at hc
    simpa [outState] using hc

/-- The reset state at the start of a rule run satisfies the category
invariant. -/
theorem catInv_reset (cfg : Config) (ds : Dataset) (a : Bool) (b : Option Dataset)
    (c : Option (List TBRow)) (d : Option (List CCRow)) :
    catInv cfg ds ⟨a, b, c, d, some [], []⟩ :=
  ⟨rfl, by simp⟩

/-- Claim C5 (amended): after a high-risk test run from a state that passed
the gate, high_risk_entries equals the concatenation of the per-category
lists, hence as a set of records it is their union, and every recorded
category holds exactly the rows its rule matched; the flat collection is
however a concatenation, not deduplicated (see the counterexample). -/
theorem union_law :
    ∀ (cfg : Config) (st : AppState) (ds : Dataset),
      st.completeness_check_passed = true →
      st.processed_df = some ds → ds.rows ≠ [] →
      ∃ l, (perform_high_risk_test cfg st).1.high_risk_entries = some l ∧
        l = ((perform_high_risk_test cfg st).1.flagged_entries_by_category.map Prod.snd).flatten ∧
        (∀ r : Record, r ∈ l ↔
          ∃ p ∈ (perform_high_risk_test cfg st).1.flagged_entries_by_category, r ∈ p.2) ∧
        (∀ p ∈ (perform_high_risk_test cfg st).1.flagged_entries_by_category,
          p.2 = categoryFilter cfg ds p.1) := by
  intro cfg st ds hp h1 h2
  have hinv : catInv cfg ds (perform_high_risk_test cfg st).1 := by
    unfold perform_high_risk_test
    rw [h1]
    simp only [hp, if_true, h2, if_false]
    exact runChain_inv cfg ds _ (catInv_reset cfg ds _ _ _ _)
  obtain ⟨hh, hcat⟩ := hinv
  refine ⟨_, hh, rfl, ?_, hcat⟩
  intro r
  simp only [List.mem_flatten, List.mem_map, Prod.exists]
  constructor
  · rintro ⟨l, ⟨a, b, hab, rfl⟩, hrl⟩
    exact ⟨a, b, hab, hrl⟩
  · rintro ⟨a, b, hab, hrb⟩
    exact ⟨b, ⟨a, b, hab, rfl⟩, hrb⟩

/-- Counterexample to claim C5 as stated: a row on a listed holiday with a
rounded debit is flagged by both enabled rules and appears twice in the flat
collection, which is therefore not deduplicated. -/
theorem high_risk_entries_not_dedup :
    (perform_high_risk_test cfg5 st5).1.high_risk_entries = some [r5, r5] ∧
    ¬ ((perform_high_risk_test cfg5 st5).1.high_risk_entries.getD []).Nodup := by
  constructor
  · rfl
  · decide

/-- Witness for the amended claim C5 at the duplication fixture. -/
theorem union_law_witness :
    st5.completeness_check_passed = true ∧ st5.processed_df = some ds5 ∧ ds5.rows ≠ [] ∧
    (∃ l, (perform_high_risk_test cfg5 st5).1.high_risk_entries = some l ∧
      l = ((perform_high_risk_test cfg5 st5).1.flagged_entries_by_category.map Prod.snd).flatten ∧
      (∀ r : Record, r ∈ l ↔
        ∃ p ∈ (perform_high_risk_test cfg5 st5).1.flagged_entries_by_category, r ∈ p.2) ∧
      (∀ p ∈ (perform_high_risk_test cfg5 st5).1.flagged_entries_by_category,
        p.2 = categoryFilter cfg5 ds5 p.1)) :=
  ⟨rfl, rfl, by decide, union_law cfg5 st5 ds5 rfl rfl (by decide)⟩

/-- With a nonzero threshold, is_rounded never raises. -/
theorem is_rounded_isSome (v : Option ℚ) (t : ℚ) (ht : t ≠ 0) :
    (is_rounded v t).isNone = false := by
  cases v with
  | none => simp [is_rounded, ht]
  | some q =>
    unfold is_rounded
    by_cases hq : q = 0
    · simp [hq]
    · simp [hq, ht]

/-- With a nonzero threshold, the rounded-number filter raises on no row. -/
theorem roundedException_false (t : ℚ) (rows : List Record) (ht : t ≠ 0) :
    roundedException t rows = false := by
  unfold roundedException
  simp only [Bool.or_eq_false_iff, List.any_eq_false]
  constructor <;> intro r _ <;> simp [is_rounded_isSome _ _ ht]

/-- Claim C3 (amended): when the unusual-user rule is enabled on a dataset
missing the Created By column (the gate having passed, any enabled
public-holiday rule having its Date column, and the rounded threshold being
nonzero), the run reports an error and returns early: only the categories of
the checks that ran before the failing one can be present, no later rule
(99999 Pattern, Seldomly Used Accounts, ...) records a category, and the
message list ends with the column error rather than a warning-and-continue. -/
theorem missing_column_aborts :
    ∀ (cfg : Config) (st : AppState) (ds : Dataset),
      st.completeness_check_passed = true →
      st.processed_df = some ds → ds.rows ≠ [] →
      (cfg.public_holidays_var = true → ds.hasDate = true) →
      cfg.rounded_threshold ≠ 0 →
      cfg.unusual_users_var = true →
      ds.hasCreatedBy = false →
      (∀ c ∈ ((perform_high_risk_test cfg st).1.flagged_entries_by_category.map Prod.fst),
          c = "Public Holidays" ∨ c = "Rounded Numbers") ∧
      lookupCategory (perform_high_risk_test cfg st).1 "Seldomly Used Accounts" = none ∧
      lookupCategory (perform_high_risk_test cfg st).1 "99999 Pattern" = none ∧
      (∃ ms, (perform_high_risk_test cfg st).2 =
          ms ++ [Msg.error "Column Created By not found in the data."]) := by
  intro cfg st ds hp h1 h2 hfd ht huv hcb
  have hre := roundedException_false cfg.rounded_threshold ds.rows ht
  unfold perform_high_risk_test
  rw [h1]
  simp only [hp, if_true, h2, if_false]
  unfold runChain
  cases hph : cfg.public_holidays_var with
  | true =>
    have hd := hfd hph
    cases hrv : cfg.rounded_var with
    | true =>
      simp [holidayStep, roundedStep, unusualStep, seqStep, hph, hd, hre, hrv, huv, hcb,
        addCategory, lookupCategory, List.find?]
    | false =>
      simp [holidayStep, roundedStep, unusualStep, seqStep, hph, hd, hrv, huv, hcb,
        addCategory, lookupCategory, List.find?]
  | false =>
    cases hrv : cfg.rounded_var with
    | true =>
      simp [holidayStep, roundedStep, unusualStep, seqStep, hph, hre, hrv, huv, hcb,
        addCategory, lookupCategory, List.find?]
    | false =>
      simp [holidayStep, roundedStep, unusualStep, seqStep, hph, hrv, huv, hcb,
        addCategory, lookupCategory, List.find?]

/-- Counterexample to claim C3 as stated: with the unusual-user rule enabled
on a dataset lacking the Created By column and the seldomly-used-accounts
rule also enabled (and matching the row), the run aborts with an error, no
category at all is produced — in particular not the Seldomly Used Accounts
category the claim promises — so the remaining enabled rules did not
proceed. -/
theorem missing_column_aborts_counterexample :
    (perform_high_risk_test cfg3 st3).1.flagged_entries_by_category = [] ∧
    (perform_high_risk_test cfg3 st3).2 =
        [Msg.error "Column Created By not found in the data."] ∧
    ds3.rows.filter (seldomHit ds3.rows cfg3.seldomly_used_accounts_threshold) ≠ [] := by
  refine ⟨rfl, rfl, by decide⟩

/-- Witness for the amended claim C3 at the abort fixture. -/
theorem missing_column_aborts_witness :
    cfg3.unusual_users_var = true ∧ ds3.hasCreatedBy = false ∧
    lookupCategory (perform_high_risk_test cfg3 st3).1 "Seldomly Used Accounts" = none ∧
    (∃ ms, (perform_high_risk_test cfg3 st3).2 =
        ms ++ [Msg.error "Column Created By not found in the data."]) :=
  ⟨rfl, rfl,
    (missing_column_aborts cfg3 st3 ds3 rfl rfl (by decide) (by decide) (by decide) rfl rfl).2.1,
    (missing_column_aborts cfg3 st3 ds3 rfl rfl (by decide) (by decide) (by decide) rfl rfl).2.2.2⟩

theorem seq_extends (f : AppState × List Msg → StepM) (hf : FlaggedExtends f) (x : StepM) :
    ∃ t, (outState (seqStep x f)).flagged_entries_by_category
        = (outState x).flagged_entries_by_category ++ t := by
  cases x with
  | error r => exact ⟨[], by simp [seqStep, outState]⟩
  | ok s => exact hf s

theorem roundedStep_extends (cfg : Config) (ds : Dataset) :
    FlaggedExtends (roundedStep cfg ds) := by
  intro s
  unfold roundedStep
  split
  · split
    · exact ⟨[], by simp [outState]⟩
    · exact ⟨[("Rounded Numbers", ds.rows.filter (roundedHit cfg.rounded_threshold))],
        by simp [outState, addCategory]⟩
  · exact ⟨[], by simp [outState]⟩

theorem unusualStep_extends (cfg : Config) (ds : Dataset) :
    FlaggedExtends (unusualStep cfg ds) := by
  intro s
  unfold unusualStep
  split
  · split
    · split
      · exact ⟨[], by simp [outState]⟩
      · exact ⟨[("Unauthorized Users", ds.rows.filter (unusualHit cfg.authorized_users))],
          by simp [outState, addCategory]⟩
    · exact ⟨[], by simp [outState]⟩
  · exact ⟨[], by simp [outState]⟩

theorem postClosingStep_extends (cfg : Config) (ds : Dataset) :
    FlaggedExtends (postClosingStep cfg ds) := by
  intro s
  unfold postClosingStep
  split
  · split
    · split
      · exact ⟨[], by simp [outState]⟩
      · rename_i cd _
        exact ⟨[("Post-Closing Entries", ds.rows.filter (postClosingHit cd))],
          by simp [outState, addCategory]⟩
    · exact ⟨[], by simp [outState]⟩
  · exact ⟨[], by simp [outState]⟩

theorem authStep_extends (cfg : Config) (ds : Dataset) :
    FlaggedExtends (authStep cfg ds) := by
  intro s
  unfold authStep
  split
  · exact ⟨[("Below Authorization Threshold", ds.rows.filter (authHit cfg.auth_threshold))],
      by simp [outState, addCategory]⟩
  · exact ⟨[], by simp [outState]⟩

theorem nineStep_extends (cfg : Config) (ds : Dataset) :
    FlaggedExtends (nineStep cfg ds) := by
  intro s
  unfold nineStep
  split
  · exact ⟨[("99999 Pattern", ds.rows.filter nineHit)], by simp [outState, addCategory]⟩
  · exact ⟨[], by simp [outState]⟩

theorem keywordsStep_extends (cfg : Config) (ds : Dataset) :
    FlaggedExtends (keywordsStep cfg ds) := by
  intro s
  unfold keywordsStep
  split
  · split
    · split
      · exact ⟨[], by simp [outState]⟩
      · exact ⟨[("Suspicious Keywords", ds.rows.filter (keywordHit cfg.suspicious_keywords))],
          by simp [outState, addCategory]⟩
    · exact ⟨[], by simp [outState]⟩
  · exact ⟨[], by simp [outState]⟩

theorem seldomStep_extends (cfg : Config) (ds : Dataset) :
    FlaggedExtends (seldomStep cfg ds) := by
  intro s
  unfold seldomStep
  split
  · exact ⟨[("Seldomly Used Accounts",
        ds.rows.filter (seldomHit ds.rows cfg.seldomly_used_accounts_threshold))],
      by simp [outState, addCategory]⟩
  · exact ⟨[], by simp [outState]⟩

/-- The resulting state of a chain run is the state of its last reached
check. -/
theorem runChain_fst (cfg : Config) (ds : Dataset) (s0 : AppState × List Msg) :
    (runChain cfg ds s0).1 =
      outState (seqStep (seqStep (seqStep (seqStep (seqStep (seqStep (seqStep
        (holidayStep cfg ds s0)
        (roundedStep cfg ds))
        (unusualStep cfg ds))
        (postClosingStep cfg ds))
        (authStep cfg ds))
        (nineStep cfg ds))
        (keywordsStep cfg ds))
        (seldomStep cfg ds)) := by
  unfold runChain
  split
  · next r heq => rw [heq]; rfl
  · next s heq => rw [heq]; rfl

/-- When the public-holiday rule is enabled and the Date column exists, the
Public Holidays category is recorded first, with exactly the rows whose date
is in the configured list, and every later check only appends after it. -/
theorem runChain_extends_holiday (cfg : Config) (ds : Dataset)
    (s0 : AppState × List Msg)
    (hph : cfg.public_holidays_var = true) (hd : ds.hasDate = true) :
    ∃ t, (runChain cfg ds s0).1.flagged_entries_by_category
        = s0.1.flagged_entries_by_category ++
            ("Public Holidays", ds.rows.filter (holidayHit cfg.public_holidays)) :: t := by
  rw [runChain_fst]
  obtain ⟨t2, ht2⟩ := seq_extends _ (roundedStep_extends cfg ds) (holidayStep cfg ds s0)
  obtain ⟨t3, ht3⟩ := seq_extends _ (unusualStep_extends cfg ds)
    (seqStep (holidayStep cfg ds s0) (roundedStep cfg ds))
  obtain ⟨t4, ht4⟩ := seq_extends _ (postClosingStep_extends cfg ds)
    (seqStep (seqStep (holidayStep cfg ds s0) (roundedStep cfg ds)) (unusualStep cfg ds))
  obtain ⟨t5, ht5⟩ := seq_extends _ (authStep_extends cfg ds)
    (seqStep (seqStep (seqStep (holidayStep cfg ds s0) (roundedStep cfg ds))
      (unusualStep cfg ds)) (postClosingStep cfg ds))
  obtain ⟨t6, ht6⟩ := seq_extends _ (nineStep_extends cfg ds)
    (seqStep (seqStep (seqStep (seqStep (holidayStep cfg ds s0) (roundedStep cfg ds))
      (unusualStep cfg ds)) (postClosingStep cfg ds)) (authStep cfg ds))
  obtain ⟨t7, ht7⟩ := seq_extends _ (keywordsStep_extends cfg ds)
    (seqStep (seqStep (seqStep (seqStep (seqStep (holidayStep cfg ds s0)
      (roundedStep cfg ds)) (unusualStep cfg ds)) (postClosingStep cfg ds))
      (authStep cfg ds)) (nineStep cfg ds))
  obtain ⟨t8, ht8⟩ := seq_extends _ (seldomStep_extends cfg ds)
    (seqStep (seqStep (seqStep (seqStep (seqStep (seqStep (holidayStep cfg ds s0)
      (roundedStep cfg ds)) (unusualStep cfg ds)) (postClosingStep cfg ds))
      (authStep cfg ds)) (nineStep cfg ds)) (keywordsStep cfg ds))
  have hx1 : (outState (holidayStep cfg ds s0)).flagged_entries_by_category =
      s0.1.flagged_entries_by_category ++
        [("Public Holidays", ds.rows.filter (holidayHit cfg.public_holidays))] := by
    unfold holidayStep
    simp [hph, hd, outState, addCategory]
  refine ⟨t2 ++ t3 ++ t4 ++ t5 ++ t6 ++ t7 ++ t8, ?_⟩
  rw [ht8, ht7, ht6, ht5, ht4, ht3, ht2, hx1]
  simp [List.append_assoc]

/-- Claim C7 (amended): the rule labelled Public Holidays flags exactly the
rows whose date is a member of the configured public-holiday list; the day
of week is never consulted, so a row whose date is not in the list is
excluded from the category even when that date is a Saturday or a Sunday. -/
theorem holiday_rule_list_only :
    ∀ (cfg : Config) (st : AppState) (ds : Dataset),
      st.completeness_check_passed = true →
      st.processed_df = some ds → ds.rows ≠ [] →
      cfg.public_holidays_var = true → ds.hasDate = true →
      lookupCategory (perform_high_risk_test cfg st).1 "Public Holidays" =
          some (ds.rows.filter (holidayHit cfg.public_holidays)) ∧
      (∀ r ∈ ds.rows, (∀ h ∈ cfg.public_holidays, ¬ r.date = some h) →
        ∀ l, lookupCategory (perform_high_risk_test cfg st).1 "Public Holidays" = some l →
          r ∉ l) := by
  intro cfg st ds hp h1 h2 hph hd
  unfold perform_high_risk_test
  rw [h1]
  simp only [hp, if_true, h2, if_false]
  obtain ⟨t, ht⟩ := runChain_extends_holiday cfg ds
    (⟨true, some ds, st.trial_balance, st.completeness_check_results, some [], []⟩,
      ([] : List Msg)) hph hd
  have hlk : lookupCategory
      (runChain cfg ds
        (⟨true, some ds, st.trial_balance, st.completeness_check_results, some [], []⟩,
          ([] : List Msg))).1 "Public Holidays" =
      some (ds.rows.filter (holidayHit cfg.public_holidays)) := by
    unfold lookupCategory
    rw [ht]
    simp [List.find?]
  refine ⟨hlk, ?_⟩
  intro r _ hno l hl hrl
  rw [hlk] at hl
  injection hl with hl
  subst hl
  have hhit : holidayHit cfg.public_holidays r = true := by
    have := List.mem_filter.mp hrl
    exact this.2
  unfold holidayHit at hhit
  simp only [List.any_eq_true, decide_eq_true_eq] at hhit
  obtain ⟨h, hh, hdate⟩ := hhit
  exact hno h hh hdate

/-- Counterexample to claim C7 as stated: day 2 is a Saturday, the holiday
list is empty, and the Saturday row is not flagged — the recorded Public
Holidays category is empty. -/
theorem weekend_not_flagged :
    isWeekend 2 = true ∧ rW.date = some 2 ∧ rW ∈ dsW.rows ∧
    cfgW.public_holidays = [] ∧ cfgW.public_holidays_var = true ∧
    lookupCategory (perform_high_risk_test cfgW stW).1 "Public Holidays" = some [] := by
  exact ⟨by decide, rfl, by decide, rfl, rfl, rfl⟩

/-- Witness for the amended claim C7 at the weekend fixture. -/
theorem holiday_rule_list_only_witness :
    stW.completeness_check_passed = true ∧ cfgW.public_holidays_var = true ∧
    dsW.hasDate = true ∧
    lookupCategory (perform_high_risk_test cfgW stW).1 "Public Holidays" =
        some (dsW.rows.filter (holidayHit cfgW.public_holidays)) :=
  ⟨rfl, rfl, rfl,
    (holiday_rule_list_only cfgW stW dsW rfl rfl (by decide) rfl rfl).1⟩

/-- Claim C8 (amended): confirming a column mapping fails with a
configuration error, producing no processed dataset, if and only if at least
one field of the required set consisting of Transaction ID, Date, Debit
Amount (Dr), Credit Amount (Cr) AND Account Number is left unmapped; every
mapping assigning all five produces the renamed, type-coerced dataset. -/
theorem mapping_required_five :
    ∀ (mapping : List (String × String)) (df : RawDf),
      ((∃ f ∈ required_fields, ((mapping.lookup f).getD "") = "") ↔
        (∃ m, confirm_mapping mapping df = .error m)) ∧
      ((∀ f ∈ required_fields, ((mapping.lookup f).getD "") ≠ "") →
        confirm_mapping mapping df = .ok (convert_data_types (renameColumns mapping df))) := by
  intro mapping df
  unfold confirm_mapping
  by_cases hm : required_fields.filter (fun f => ((mapping.lookup f).getD "") = "") = []
  · rw [if_pos hm]
    refine ⟨⟨?_, ?_⟩, fun _ => rfl⟩
    · rintro ⟨f, hf, hpred⟩
      have := List.filter_eq_nil_iff.mp hm f hf
      simp only [decide_eq_true_eq] at this
      exact absurd hpred this
    · rintro ⟨m, hm2⟩
      cases hm2
  · rw [if_neg hm]
    refine ⟨⟨?_, ?_⟩, ?_⟩
    · intro _
      exact ⟨_, rfl⟩
    · intro _
      obtain ⟨x, hx⟩ := List.exists_mem_of_ne_nil _ hm
      have hx2 := List.mem_filter.mp hx
      refine ⟨x, hx2.1, ?_⟩
      simpa using hx2.2
    · intro hall
      exact absurd (List.filter_eq_nil_iff.mpr (by
        intro f hf
        simp only [decide_eq_true_eq]
        exact hall f hf)) hm

/-- Counterexample to claim C8 as stated: a mapping assigning the four
fields the claim calls required, but not Account Number, still fails — the
required set of the code has five fields. -/
theorem four_field_mapping_fails :
    (∀ f ∈ (["Transaction ID", "Date", "Debit Amount (Dr)", "Credit Amount (Cr)"] : List String),
        ((mapping4.lookup f).getD "") ≠ "") ∧
    confirm_mapping mapping4 rawDf0 = .error ["Account Number"] := by
  exact ⟨by decide, rfl⟩

/-- Witness for the amended claim C8 at a mapping assigning all five
required fields. -/
theorem mapping_required_five_witness :
    (∀ f ∈ required_fields, ((mapping5.lookup f).getD "") ≠ "") ∧
    confirm_mapping mapping5 rawDf0 =
      .ok (convert_data_types (renameColumns mapping5 rawDf0)) :=
  ⟨by decide, (mapping_required_five mapping5 rawDf0).2 (by decide)⟩

/-- A high-risk test run from a state that passed the gate satisfies the
category invariant: the flat collection is the concatenation of the recorded
category lists and every recorded category is exactly its rule's filter. -/
theorem perform_catInv (cfg : Config) (st : AppState) (ds : Dataset)
    (hp : st.completeness_check_passed = true)
    (h1 : st.processed_df = some ds) (h2 : ds.rows ≠ []) :
    catInv cfg ds (perform_high_risk_test cfg st).1 := by
  unfold perform_high_risk_test
  rw [h1]
  simp only [hp, if_true, h2, if_false]
  exact runChain_inv cfg ds _ (catInv_reset cfg ds _ _ _ _)

/-- Claim C10 (amended): is_rounded returns False on a zero amount for every
threshold (zero is excluded before the modulo is taken), and on a missing
amount for every nonzero threshold; with threshold 0 a missing (NaN) amount
instead raises an uncaught ZeroDivisionError (see the counterexample).  In
every case, rows whose debit and credit amounts are each zero or missing are
never flagged under the Rounded Numbers category: the rounded filter rejects
them, and any recorded Rounded Numbers category consists exactly of rows the
filter accepted. -/
theorem is_rounded_zero_null :
    (∀ t : ℚ, is_rounded (some 0) t = some false) ∧
    (∀ t : ℚ, t ≠ 0 → is_rounded none t = some false) ∧
    (∀ (t : ℚ) (r : Record),
      (r.debit = some 0 ∨ r.debit = none) →
      (r.credit = some 0 ∨ r.credit = none) →
      roundedHit t r = false) ∧
    (∀ (cfg : Config) (st : AppState) (ds : Dataset),
      st.completeness_check_passed = true →
      st.processed_df = some ds → ds.rows ≠ [] →
      ∀ l, lookupCategory (perform_high_risk_test cfg st).1 "Rounded Numbers" = some l →
        ∀ r ∈ l, ¬ ((r.debit = some 0 ∨ r.debit = none) ∧
                    (r.credit = some 0 ∨ r.credit = none))) := by
  have hzero : ∀ t : ℚ, is_rounded (some 0) t = some false := by
    intro t
    simp [is_rounded]
  have hnone : ∀ t : ℚ, t ≠ 0 → is_rounded none t = some false := by
    intro t ht
    simp [is_rounded, ht]
  have hhit : ∀ (t : ℚ) (r : Record),
      (r.debit = some 0 ∨ r.debit = none) →
      (r.credit = some 0 ∨ r.credit = none) → roundedHit t r = false := by
    intro t r hd hc
    have hdeb : (is_rounded r.debit t).getD false = false := by
      rcases hd with h | h <;> rw [h]
      · simp [is_rounded]
      · by_cases ht : t = 0 <;> simp [is_rounded, ht]
    have hcred : (is_rounded r.credit t).getD false = false := by
      rcases hc with h | h <;> rw [h]
      · simp [is_rounded]
      · by_cases ht : t = 0 <;> simp [is_rounded, ht]
    simp [roundedHit, hdeb, hcred]
  refine ⟨hzero, hnone, hhit, ?_⟩
  intro cfg st ds hp h1 h2 l hl r hr hzn
  obtain ⟨_, hcat⟩ := perform_catInv cfg st ds hp h1 h2
  unfold lookupCategory at hl
  cases hfp : (perform_high_risk_test cfg st).1.flagged_entries_by_category.find?
      (fun p => p.1 = "Rounded Numbers") with
  | none =>
    rw [hfp] at hl
    cases hl
  | some p =>
    rw [hfp] at hl
    have hl2 : p.2 = l := by simpa using hl
    have hpmem := List.mem_of_find?_eq_some hfp
    have hpkey := List.find?_some hfp
    simp only [decide_eq_true_eq] at hpkey
    have hpfil := hcat p hpmem
    rw [hpkey, categoryFilter_rounded] at hpfil
    rw [← hl2, hpfil] at hr
    have htrue := (List.mem_filter.mp hr).2
    rw [hhit cfg.rounded_threshold r hzn.1 hzn.2] at htrue
    cases htrue

/-- Counterexample to claim C10 as stated: with threshold 0 a missing (NaN)
amount does not return False — float(nan) succeeds and nan % 0.0 raises a
ZeroDivisionError that the except clause (ValueError, TypeError) does not
catch — while the zero-amount case still returns False at threshold 0. -/
theorem is_rounded_nan_zero_threshold :
    is_rounded none 0 = none ∧ ¬ is_rounded none 0 = some false ∧
    is_rounded (some 0) 0 = some false := by
  refine ⟨rfl, by decide, rfl⟩

/-- Witness for the amended claim C10: a missing amount at threshold 100, a
row with zero debit and missing credit, and the recorded Rounded Numbers
category of the duplication fixture. -/
theorem is_rounded_zero_null_witness :
    is_rounded none 100 = some false ∧
    roundedHit 100 ⟨"t1", none, some 0, none, 1, none, none⟩ = false ∧
    (∀ r ∈ ([r5] : List Record),
      ¬ ((r.debit = some 0 ∨ r.debit = none) ∧ (r.credit = some 0 ∨ r.credit = none))) :=
  ⟨is_rounded_zero_null.2.1 100 (by decide),
   is_rounded_zero_null.2.2.1 100 ⟨"t1", none, some 0, none, 1, none, none⟩
     (Or.inl rfl) (Or.inr rfl),
   is_rounded_zero_null.2.2.2 cfg5 st5 ds5 rfl rfl (by decide) [r5] rfl⟩

end JETO
